import Mathlib

/-!
Shallow embedding of the afterzin-api payment-confirmation and fulfillment
pipeline (package `pagarme`, webhook handling, and package `repository`,
order/ticket/lot store), modelling the SQL store as an in-memory state and
each repository function as a pure state transformer.  A database
transaction is modelled by computing a candidate state from the current
state; `Commit` adopts the candidate, rollback discards it (the final
state is the starting state).
-/

namespace Afterzin

/-- Association-list lookup: first entry whose key matches, mirroring a SQL
`SELECT ... WHERE id = ?` against a primary-key column. -/
def alookup {α : Type} : List (String × α) → String → Option α
  | [], _ => none
  | p :: rest, k => if p.1 = k then some p.2 else alookup rest k

/-- Association-list update of the first entry whose key matches, mirroring
a SQL `UPDATE ... WHERE id = ?` against a primary-key column. -/
def aupdate {α : Type} : List (String × α) → String → (α → α) → List (String × α)
  | [], _, _ => []
  | p :: rest, k, f => if p.1 = k then (p.1, f p.2) :: rest else p :: aupdate rest k f

/-- Row of the `orders` table (columns used by the pipeline).  The
`pagarme_order_id` and `pagarme_charge_id` columns are nullable; `none`
models SQL NULL. -/
structure OrderRow where
  userID : String
  status : String
  total : ℚ
  pagarmeOrderID : Option String
  pagarmeChargeID : Option String
deriving DecidableEq, Repr

/-- Row of the `order_items` table. -/
structure OrderItemRow where
  id : String
  orderID : String
  eventDateID : String
  ticketTypeID : String
  quantity : Int
  unitPrice : ℚ
deriving DecidableEq, Repr

/-- Row of the `ticket_types` table (columns used by the pipeline). -/
structure TicketTypeRow where
  soldQuantity : Int
  lotID : String
deriving DecidableEq, Repr

/-- Row of the `lots` table (column used by the pipeline). -/
structure LotRow where
  availableQuantity : Int
deriving DecidableEq, Repr

/-- Row of the `tickets` table (the id, code and qr payload are opaque
fresh strings in the source; the pipeline claims are about which rows
exist, so those opaque columns are not tracked). -/
structure TicketRow where
  orderID : String
  orderItemID : String
  userID : String
  eventID : String
  eventDateID : String
  ticketTypeID : String
deriving DecidableEq, Repr

/-- Row of the `order_status_history` audit table. -/
structure HistoryRow where
  orderID : String
  oldStatus : String
  newStatus : String
  reason : String
  pagarmeEventID : String
  pagarmeOrderID : String
  pagarmeChargeID : String
  errorMessage : String
deriving DecidableEq, Repr

/-- Row of the `pagarme_webhook_events` table. -/
structure WebhookEventRow where
  pagarmeEventID : String
  eventType : String
  processed : Bool
deriving DecidableEq, Repr

/-- The store state: every table the fulfillment pipeline reads or
writes.  `eventDates` maps an event-date id to its event id and `events`
lists existing event ids (the only columns of those tables the pipeline
uses). -/
structure DBState where
  orders : List (String × OrderRow)
  orderItems : List OrderItemRow
  ticketTypes : List (String × TicketTypeRow)
  lots : List (String × LotRow)
  tickets : List TicketRow
  webhookEvents : List WebhookEventRow
  history : List HistoryRow
  eventDates : List (String × String)
  events : List String
deriving DecidableEq, Repr

/-- Environment of a pipeline run: the payment-gateway answer for
`GetOrderPaidAmount` (`none` models a gateway/network error) and fault
oracles for the fallible ticket-insert and sold-increment writes (the
`k`-th purchased unit's write fails when the oracle returns true),
modelling that in the source any `Exec` can return an error. -/
structure Env where
  gate : String → Option Int
  insertFault : Nat → Bool
  soldFault : Nat → Bool

/-- Source expression `int64(orderTotal * 100)`: the order total converted
to minor currency units with Go's `int64` truncation toward zero.  For a
rational `q` in lowest terms this is the truncated quotient of `q.num *
100` by `q.den`, which Lean's `Int.div` (T-division) computes exactly. -/
def expectedCentavos (q : ℚ) : Int :=
  Int.tdiv (q.num * 100) q.den

/-! Repository primitives, one per source function.  The row-update
helpers name the `SET` clause of the corresponding SQL statement. -/

/-- `SET status = ?` on an order row. -/
def setStatus (st : String) (o : OrderRow) : OrderRow :=
  { o with status := st }

/-- `SET pagarme_order_id = ?` on an order row. -/
def setPagOrder (pid : String) (o : OrderRow) : OrderRow :=
  { o with pagarmeOrderID := some pid }

/-- `SET pagarme_charge_id = ?` on an order row. -/
def setPagCharge (cid : String) (o : OrderRow) : OrderRow :=
  { o with pagarmeChargeID := some cid }

/-- `SET sold_quantity = sold_quantity + ?` on a ticket-type row. -/
def addSold (n : Int) (tt : TicketTypeRow) : TicketTypeRow :=
  { tt with soldQuantity := tt.soldQuantity + n }

/-- `SET available_quantity = available_quantity - ?` on a lot row. -/
def subAvail (n : Int) (l : LotRow) : LotRow :=
  { l with availableQuantity := l.availableQuantity - n }

/-- Source `ClaimOrderProcessingTx`: `UPDATE orders SET status =
'PROCESSING' WHERE id = ? AND status = 'PENDING'`; returns whether exactly
one row was affected. -/
def ClaimOrderProcessingTx (s : DBState) (orderID : String) : Bool × DBState :=
  match alookup s.orders orderID with
  | none => (false, s)
  | some o =>
    if o.status = "PENDING" then
      (true, { s with orders := aupdate s.orders orderID (setStatus "PROCESSING") })
    else (false, s)

/-- Source `ConfirmOrderTx`: `UPDATE orders SET status = 'PAID' WHERE id =
? AND status = 'PROCESSING'`; `none` models the `sql.ErrNoRows` returned
when no row was affected. -/
def ConfirmOrderTx (s : DBState) (orderID : String) : Option DBState :=
  match alookup s.orders orderID with
  | none => none
  | some o =>
    if o.status = "PROCESSING" then
      some { s with orders := aupdate s.orders orderID (setStatus "PAID") }
    else none

/-- Source `OrderByIDTx`: `SELECT user_id, status, total FROM orders WHERE
id = ?`; `none` models the scan error on a missing row. -/
def OrderByIDTx (s : DBState) (orderID : String) : Option (String × String × ℚ) :=
  (alookup s.orders orderID).map (fun o => (o.userID, o.status, o.total))

/-- Source `SetOrderPagarmeOrderIDTx`: `UPDATE orders SET pagarme_order_id
= ? WHERE id = ?`. -/
def SetOrderPagarmeOrderIDTx (s : DBState) (orderID pid : String) : DBState :=
  { s with orders := aupdate s.orders orderID (setPagOrder pid) }

/-- Source `SetOrderPagarmeChargeIDTx`: `UPDATE orders SET
pagarme_charge_id = ? WHERE id = ?`. -/
def SetOrderPagarmeChargeIDTx (s : DBState) (orderID cid : String) : DBState :=
  { s with orders := aupdate s.orders orderID (setPagCharge cid) }

/-- Source `OrderItemsByOrderIDTx`: `SELECT ... FROM order_items WHERE
order_id = ?`. -/
def OrderItemsByOrderIDTx (s : DBState) (orderID : String) : List OrderItemRow :=
  s.orderItems.filter (fun it => it.orderID = orderID)

/-- Source `CreateTicketWithIDTx`: `INSERT INTO tickets ...` (the fresh
uuid, code and qr payload are opaque and not tracked). -/
def CreateTicketWithIDTx (s : DBState) (t : TicketRow) : DBState :=
  { s with tickets := s.tickets ++ [t] }

/-- Source `IncrementTicketTypeSoldTx`: `UPDATE ticket_types SET
sold_quantity = sold_quantity + ? WHERE id = ?` (affecting zero rows is
not an error in the source). -/
def IncrementTicketTypeSoldTx (s : DBState) (ticketTypeID : String) (n : Int) : DBState :=
  { s with ticketTypes := aupdate s.ticketTypes ticketTypeID (addSold n) }

/-- Source `LotIDByTicketTypeIDTx`: `SELECT lot_id FROM ticket_types WHERE
id = ?`. -/
def LotIDByTicketTypeIDTx (s : DBState) (ticketTypeID : String) : Option String :=
  (alookup s.ticketTypes ticketTypeID).map (fun tt => tt.lotID)

/-- Source `DecrementLotAvailableTx`: `UPDATE lots SET available_quantity
= available_quantity - ? WHERE id = ? AND available_quantity >= ?`; `none`
models the `sql.ErrNoRows` returned when no row was affected (insufficient
quantity or missing lot). -/
def DecrementLotAvailableTx (s : DBState) (lotID : String) (n : Int) : Option DBState :=
  match alookup s.lots lotID with
  | none => none
  | some lot =>
    if n ≤ lot.availableQuantity then
      some { s with lots := aupdate s.lots lotID (subAvail n) }
    else none

/-- Source `RecordOrderStatusChange`: `INSERT INTO order_status_history
...` with an empty error message. -/
def RecordOrderStatusChange (s : DBState) (orderID oldStatus newStatus reason
    pagarmeEventID pagarmeOrderID pagarmeChargeID : String) : DBState :=
  { s with history := s.history ++
      [⟨orderID, oldStatus, newStatus, reason, pagarmeEventID, pagarmeOrderID, pagarmeChargeID, ""⟩] }

/-- Source `RecordOrderStatusChangeWithError`: `INSERT INTO
order_status_history ...` carrying an error message. -/
def RecordOrderStatusChangeWithError (s : DBState) (orderID oldStatus newStatus reason
    errorMessage : String) : DBState :=
  { s with history := s.history ++
      [⟨orderID, oldStatus, newStatus, reason, "", "", "", errorMessage⟩] }

/-- Source `PagarmeWebhookEventExists`: `SELECT COUNT(*) FROM
pagarme_webhook_events WHERE pagarme_event_id = ?` compared with zero. -/
def PagarmeWebhookEventExists (s : DBState) (eventID : String) : Bool :=
  s.webhookEvents.any (fun w => w.pagarmeEventID == eventID)

/-- Source `InsertPagarmeWebhookEvent`: `INSERT OR IGNORE INTO
pagarme_webhook_events (id, pagarme_event_id, event_type)` with
`processed` defaulting to 0. -/
def InsertPagarmeWebhookEvent (s : DBState) (eventID eventType : String) : DBState :=
  if PagarmeWebhookEventExists s eventID then s
  else { s with webhookEvents := s.webhookEvents ++ [⟨eventID, eventType, false⟩] }

/-- Source `MarkPagarmeWebhookEventProcessedAt`: `UPDATE
pagarme_webhook_events SET processed = 1, processed_at = ... WHERE
pagarme_event_id = ?`. -/
def MarkPagarmeWebhookEventProcessedAt (s : DBState) (eventID : String) : DBState :=
  let upd := fun (w : WebhookEventRow) =>
    if w.pagarmeEventID = eventID then { w with processed := true } else w
  { s with webhookEvents := s.webhookEvents.map upd }

/-- Source `PagarmeWebhookProcessedForOrder`: counts processed webhook
events of the given type joined to the order on `pagarme_order_id =
pagarme_event_id OR pagarme_charge_id = pagarme_event_id` (a NULL column
matches nothing). -/
def PagarmeWebhookProcessedForOrder (s : DBState) (orderID eventType : String) : Bool :=
  match alookup s.orders orderID with
  | none => false
  | some o => s.webhookEvents.any (fun w =>
      (o.pagarmeOrderID == some w.pagarmeEventID || o.pagarmeChargeID == some w.pagarmeEventID)
      && w.eventType == eventType && w.processed)

/-! The fulfillment pipeline, one definition per source function in the
`pagarme` handler. -/

/-- Outcome of a `processOrderPayment` run, distinguishing the source's
early-return paths (each of which rolls the transaction back) from the
two paths that reach `tx.Commit` (the fraud record and the confirmed
order). -/
inductive Outcome
  | claimFailed
  | orderNotFound
  | gatewayFailed
  | fraudCommitted
  | issueFailed
  | confirmFailed
  | confirmed
deriving DecidableEq, Repr

/-- The inner unit loop of step 6 of `processOrderPayment` (`for i := 0; i
< item.Quantity; i++`): insert one ticket row, increment the type's sold
counter, look up the lot and conditionally decrement its availability;
`none` models the early return (rollback) on any failing step.  `counter`
is the running `ticketsCreated` count, used to index the fault oracles. -/
def issueUnits (env : Env) (orderID orderUserID evID : String) (item : OrderItemRow) :
    Nat → DBState → Nat → Option (DBState × Nat)
  | 0, t, counter => some (t, counter)
  | q + 1, t, counter =>
    if env.insertFault counter then none
    else
      let t1 := CreateTicketWithIDTx t
        ⟨orderID, item.id, orderUserID, evID, item.eventDateID, item.ticketTypeID⟩
      if env.soldFault counter then none
      else
        let t2 := IncrementTicketTypeSoldTx t1 item.ticketTypeID 1
        match LotIDByTicketTypeIDTx t2 item.ticketTypeID with
        | none => none
        | some lotID =>
          match DecrementLotAvailableTx t2 lotID 1 with
          | none => none
          | some t3 => issueUnits env orderID orderUserID evID item q t3 (counter + 1)

/-- The outer item loop of step 6 of `processOrderPayment`: resolve the
item's event date, event and ticket type, then issue each purchased unit;
`none` models the early return (rollback) on any failing step.  A Go
`for` loop over a non-positive `item.Quantity` runs zero times, hence
`Int.toNat`. -/
def issueItems (env : Env) (orderID orderUserID : String) :
    List OrderItemRow → DBState → Nat → Option (DBState × Nat)
  | [], t, counter => some (t, counter)
  | item :: rest, t, counter =>
    match alookup t.eventDates item.eventDateID with
    | none => none
    | some evID =>
      if t.events.contains evID then
        match alookup t.ticketTypes item.ticketTypeID with
        | none => none
        | some _ =>
          match issueUnits env orderID orderUserID evID item item.quantity.toNat t counter with
          | none => none
          | some (t2, c2) => issueItems env orderID orderUserID rest t2 c2
      else none

/-- Steps 5 through 9 of `processOrderPayment`: list the order items,
issue every unit, confirm the order `PROCESSING → PAID`, append the audit
row (non-fatal in the source, always succeeding here) and commit.  `t` is
the transaction's candidate state and `s0` the state rolled back to. -/
def issuePhase (env : Env) (s0 t : DBState)
    (orderID orderUserID pagarmeOrderID chargeID : String) : Outcome × DBState :=
  let items := OrderItemsByOrderIDTx t orderID
  match issueItems env orderID orderUserID items t 0 with
  | none => (Outcome.issueFailed, s0)
  | some (t2, _) =>
    match ConfirmOrderTx t2 orderID with
    | none => (Outcome.confirmFailed, s0)
    | some t3 =>
      (Outcome.confirmed, RecordOrderStatusChange t3 orderID "PROCESSING" "PAID"
        "webhook_payment_confirmed" "" pagarmeOrderID chargeID)

/-- Step 2 of `processOrderPayment`: save the Pagar.me order and charge
ids on the order inside the transaction, each skipped when the extracted
value is empty. -/
def saveGatewayIDs (t : DBState) (orderID pagarmeOrderID chargeID : String) : DBState :=
  let t1 := if pagarmeOrderID = "" then t else SetOrderPagarmeOrderIDTx t orderID pagarmeOrderID
  if chargeID = "" then t1 else SetOrderPagarmeChargeIDTx t1 orderID chargeID

/-- Source `processOrderPayment`: claim the order (optimistic lock), save
the gateway ids, validate the paid amount against `int64(total * 100)`
when a gateway order id is present, then issue tickets and confirm.
Every early return yields the pre-transaction state (the deferred
rollback); only the fraud record and the confirmed order are committed.
On a gateway error the source writes a failed-validation audit row into
the transaction and then returns without committing, so that write is
discarded by the rollback. -/
def processOrderPayment (env : Env) (s : DBState)
    (orderID pagarmeOrderID chargeID : String) : Outcome × DBState :=
  let claim := ClaimOrderProcessingTx s orderID
  if claim.1 then
    let t2 := saveGatewayIDs claim.2 orderID pagarmeOrderID chargeID
    match OrderByIDTx t2 orderID with
    | none => (Outcome.orderNotFound, s)
    | some (orderUserID, orderStatus, orderTotal) =>
      if orderUserID = "" then (Outcome.orderNotFound, s)
      else
        if pagarmeOrderID = "" then
          issuePhase env s t2 orderID orderUserID pagarmeOrderID chargeID
        else
          match env.gate pagarmeOrderID with
          | none => (Outcome.gatewayFailed, s)
          | some paidAmount =>
            let expectedAmount := expectedCentavos orderTotal
            if paidAmount ≠ expectedAmount then
              (Outcome.fraudCommitted, RecordOrderStatusChange t2 orderID orderStatus
                "FRAUD_ALERT" "amount_mismatch" "" pagarmeOrderID chargeID)
            else
              issuePhase env s t2 orderID orderUserID pagarmeOrderID chargeID
  else (Outcome.claimFailed, s)

/-- Parsed `data` object of a notification, with Go comma-ok semantics:
a missing, empty or non-string field yields the empty string.  `code` is
the internal order id, `id` the remote gateway order or charge id,
`chargeID` the id of the first entry of `data.charges` (order.paid), and
`order` the embedded order object of a charge.paid payload. -/
structure EventData where
  code : String
  id : String
  chargeID : String
  order : Option (String × String)
deriving DecidableEq, Repr

/-- Parsed webhook notification `{id, type, data}`; `data = none` models a
payload whose `data` field is absent. -/
structure WebhookEvent where
  id : String
  type : String
  data : Option EventData
deriving DecidableEq, Repr

/-- Source `handleOrderPaid`: extract the order code and remote order id,
run the cross-event idempotency guard for both event types, extract the
charge id and process the payment.  Failures are log-only: the state is
returned unchanged. -/
def handleOrderPaid (env : Env) (s : DBState) (ev : WebhookEvent) : DBState :=
  match ev.data with
  | none => s
  | some d =>
    if d.code = "" then s
    else if PagarmeWebhookProcessedForOrder s d.code "order.paid" then s
    else if PagarmeWebhookProcessedForOrder s d.code "charge.paid" then s
    else (processOrderPayment env s d.code d.id d.chargeID).2

/-- Source `handleChargePaid`: extract the order reference from the
charge payload, run the cross-event idempotency guard for both event
types and process the payment.  Failures are log-only. -/
def handleChargePaid (env : Env) (s : DBState) (ev : WebhookEvent) : DBState :=
  match ev.data with
  | none => s
  | some d =>
    match d.order with
    | none => s
    | some (orderCode, orderRemoteID) =>
      if orderCode = "" then s
      else if PagarmeWebhookProcessedForOrder s orderCode "order.paid" then s
      else if PagarmeWebhookProcessedForOrder s orderCode "charge.paid" then s
      else (processOrderPayment env s orderCode orderRemoteID d.id).2

/-- Source `HandleWebhook`, from the point where the body has been parsed
into an event: dedup on the remote event id (duplicate deliveries are
acknowledged with 200 and no processing), insert the event row before any
business processing, route by type (unknown types are logged and
ignored), mark the event processed with a timestamp regardless of the
handler's outcome, and acknowledge 200. -/
def HandleWebhook (env : Env) (s : DBState) (ev : WebhookEvent) : Nat × DBState :=
  if PagarmeWebhookEventExists s ev.id then (200, s)
  else
    let s1 := InsertPagarmeWebhookEvent s ev.id ev.type
    let s2 :=
      if ev.type = "order.paid" then handleOrderPaid env s1 ev
      else if ev.type = "charge.paid" then handleChargePaid env s1 ev
      else s1
    (200, MarkPagarmeWebhookEventProcessedAt s2 ev.id)

/-- Fold a sequence of webhook deliveries, each with its own environment
(gateway answers and fault injections), through the endpoint: the
reachable states of the system are exactly the results of such folds. -/
def deliverAll (runs : List (Env × WebhookEvent)) (s : DBState) : DBState :=
  runs.foldl (fun st r => (HandleWebhook r.1 st r.2).2) s

/-- State observation: every lot's available counter is non-negative. -/
def lotsNonneg (s : DBState) : Prop :=
  ∀ p ∈ s.lots, 0 ≤ p.2.availableQuantity

instance (s : DBState) : Decidable (lotsNonneg s) :=
  List.decidableBAll _ s.lots

/-- State observation: the sum of all lots' available counters. -/
def totalAvail (s : DBState) : Int :=
  (s.lots.map (fun p => p.2.availableQuantity)).sum

/-- State observation: a webhook event row with this remote id exists and
is marked processed. -/
def WebhookEventProcessed (s : DBState) (eventID : String) : Bool :=
  s.webhookEvents.any (fun w => w.pagarmeEventID == eventID && w.processed)

/-! Concrete scenario fixtures used by the spec's §8 scenarios and the
witnesses below. -/

/-- Scenario fixture (spec §8): a `PENDING` order `o1` for user `u1`
totalling 300.00, with one 3-unit item at 100.00 each on ticket type
`tt1` (0 sold) drawing from lot `l1` with 10 available, for event `e1`
on date `ed1`; no tickets, webhook events or audit rows yet. -/
def scenarioState : DBState :=
  ⟨[("o1", ⟨"u1", "PENDING", 300, none, none⟩)],
   [⟨"it1", "o1", "ed1", "tt1", 3, 100⟩],
   [("tt1", ⟨0, "l1"⟩)],
   [("l1", ⟨10⟩)],
   [], [], [],
   [("ed1", "e1")], ["e1"]⟩

/-- Scenario fixture with only 2 units left in lot `l1`, fewer than the
order's 3 purchased units. -/
def lowStockState : DBState :=
  ⟨[("o1", ⟨"u1", "PENDING", 300, none, none⟩)],
   [⟨"it1", "o1", "ed1", "tt1", 3, 100⟩],
   [("tt1", ⟨0, "l1"⟩)],
   [("l1", ⟨2⟩)],
   [], [], [],
   [("ed1", "e1")], ["e1"]⟩

/-- Environment whose gateway reports 30000 settled centavos and whose
writes never fail. -/
def okEnv : Env := ⟨fun _ => some 30000, fun _ => false, fun _ => false⟩

/-- Environment whose gateway reports 25000 settled centavos (spec §8
Scenario B) and whose writes never fail. -/
def fraudEnv : Env := ⟨fun _ => some 25000, fun _ => false, fun _ => false⟩

/-- Environment whose every settled-amount fetch fails. -/
def downEnv : Env := ⟨fun _ => none, fun _ => false, fun _ => false⟩

/-- Environment whose second ticket-insert write (unit index 1) fails. -/
def insertFaultEnv : Env := ⟨fun _ => some 30000, fun k => k == 1, fun _ => false⟩

/-- The order.paid notification `evt-1` for order `o1` (remote order
`pg1`, first charge `ch1`). -/
def evA : WebhookEvent := ⟨"evt-1", "order.paid", some ⟨"o1", "pg1", "ch1", none⟩⟩

/-- A charge.paid notification `evt-2` referencing the same payment:
charge `ch1` whose embedded order object carries code `o1` and remote id
`pg1`. -/
def evB : WebhookEvent := ⟨"evt-2", "charge.paid", some ⟨"", "ch1", "", some ("o1", "pg1")⟩⟩

/-- A notification of a type the router does not handle. -/
def evU : WebhookEvent := ⟨"evt-3", "subscription.created", none⟩

/-- State in which notification `evt-1` was already received and
processed. -/
def dupState : DBState :=
  { scenarioState with webhookEvents := [⟨"evt-1", "order.paid", true⟩] }

/-- State after the order.paid notification fulfilled order `o1` (spec §8
Scenario A). -/
def paidState : DBState := (HandleWebhook okEnv scenarioState evA).2

/-! Lemmas about the association-list primitives. -/

theorem alookup_aupdate_self {α : Type} (l : List (String × α)) (k : String) (f : α → α) :
    alookup (aupdate l k f) k = (alookup l k).map f := by
  induction l with
  | nil => rfl
  | cons p rest ih =>
    by_cases h : p.1 = k
    · simp [alookup, aupdate, h]
    · simp [alookup, aupdate, h, ih]

theorem mem_aupdate {α : Type} {l : List (String × α)} {k : String} {f : α → α} {p : String × α} :
    p ∈ aupdate l k f → p ∈ l ∨ ∃ v, alookup l k = some v ∧ p = (k, f v) := by
  induction l with
  | nil => intro hp; simp [aupdate] at hp
  | cons q rest ih =>
    intro hp
    by_cases h : q.1 = k
    · have hstep : aupdate (q :: rest) k f = (q.1, f q.2) :: rest := by
        simp [aupdate, h]
      rw [hstep] at hp
      rcases List.mem_cons.mp hp with ha | hb
      · refine Or.inr ⟨q.2, ?_, ?_⟩
        · simp [alookup, h]
        · simpa [h] using ha
      · exact Or.inl (List.mem_cons_of_mem _ hb)
    · have hstep : aupdate (q :: rest) k f = q :: aupdate rest k f := by
        simp [aupdate, h]
      rw [hstep] at hp
      rcases List.mem_cons.mp hp with ha | hb
      · exact Or.inl (by simp [ha])
      · rcases ih hb with hm | ⟨v, hv, hpv⟩
        · exact Or.inl (List.mem_cons_of_mem _ hm)
        · exact Or.inr ⟨v, by simpa [alookup, h] using hv, hpv⟩

theorem sum_map_aupdate {α : Type} (g : α → Int) (l : List (String × α)) (k : String)
    (f : α → α) (v : α) (hv : alookup l k = some v) :
    ((aupdate l k f).map (fun p => g p.2)).sum
      = (l.map (fun p => g p.2)).sum + (g (f v) - g v) := by
  induction l with
  | nil => simp [alookup] at hv
  | cons q rest ih =>
    by_cases h : q.1 = k
    · simp only [alookup, if_pos h] at hv
      cases hv
      simp only [aupdate, if_pos h, List.map_cons, List.sum_cons]
      ring
    · simp only [alookup, if_neg h] at hv
      simp only [aupdate, if_neg h, List.map_cons, List.sum_cons, ih hv]
      ring

theorem DecrementLotAvailableTx_some {s : DBState} {lid : String} {n : Int} {s2 : DBState}
    (h : DecrementLotAvailableTx s lid n = some s2) :
    ∃ lot, alookup s.lots lid = some lot ∧ n ≤ lot.availableQuantity ∧
      s2 = { s with lots := aupdate s.lots lid (subAvail n) } := by
  unfold DecrementLotAvailableTx at h
  cases hl : alookup s.lots lid with
  | none => rw [hl] at h; cases h
  | some lot =>
    rw [hl] at h
    by_cases hc : n ≤ lot.availableQuantity
    · simp only [if_pos hc] at h
      exact ⟨lot, rfl, hc, (Option.some_injective _ h).symm⟩
    · simp only [if_neg hc] at h; cases h

theorem DecrementLotAvailableTx_spec {s : DBState} {lid : String} {n : Int} {s2 : DBState}
    (h : DecrementLotAvailableTx s lid n = some s2) :
    s2.orders = s.orders ∧ s2.orderItems = s.orderItems ∧ s2.ticketTypes = s.ticketTypes ∧
    s2.tickets = s.tickets ∧ s2.webhookEvents = s.webhookEvents ∧ s2.history = s.history ∧
    s2.eventDates = s.eventDates ∧ s2.events = s.events ∧
    totalAvail s2 = totalAvail s - n ∧ (0 ≤ n → lotsNonneg s → lotsNonneg s2) := by
  obtain ⟨lot, hlot, hle, hs2⟩ := DecrementLotAvailableTx_some h
  subst hs2
  refine ⟨rfl, rfl, rfl, rfl, rfl, rfl, rfl, rfl, ?_, ?_⟩
  · have hsum := sum_map_aupdate (fun l => l.availableQuantity) s.lots lid (subAvail n) lot hlot
    simp only [totalAvail]
    rw [hsum]
    simp only [subAvail]
    ring
  · intro hn hs p hp
    rcases mem_aupdate hp with hm | ⟨v, hv, hpv⟩
    · exact hs p hm
    · rw [hv] at hlot
      cases hlot
      subst hpv
      simp only [subAvail]
      omega

theorem issueUnits_spec (env : Env) (oid uid evid : String) (item : OrderItemRow)
    (q : Nat) :
    ∀ (t : DBState) (c : Nat) (t2 : DBState) (c2 : Nat),
      issueUnits env oid uid evid item q t c = some (t2, c2) →
      t2.orders = t.orders ∧ t2.orderItems = t.orderItems ∧
      t2.webhookEvents = t.webhookEvents ∧ t2.history = t.history ∧
      t2.eventDates = t.eventDates ∧ t2.events = t.events ∧
      (t2.tickets.length : Int) + totalAvail t2 = (t.tickets.length : Int) + totalAvail t ∧
      (lotsNonneg t → lotsNonneg t2) := by
  induction q with
  | zero =>
    intro t c t2 c2 h
    simp only [issueUnits, Option.some.injEq, Prod.mk.injEq] at h
    obtain ⟨h1, _⟩ := h
    subst h1
    exact ⟨rfl, rfl, rfl, rfl, rfl, rfl, rfl, fun hs => hs⟩
  | succ q ih =>
    intro t c t2 c2 h
    rw [issueUnits] at h
    cases hi : env.insertFault c with
    | true => rw [hi] at h; cases h
    | false =>
    rw [hi] at h
    simp only [Bool.false_eq_true, if_false] at h
    cases hs : env.soldFault c with
    | true => rw [hs] at h; cases h
    | false =>
    rw [hs] at h
    simp only [Bool.false_eq_true, if_false] at h
    cases hl : LotIDByTicketTypeIDTx (IncrementTicketTypeSoldTx (CreateTicketWithIDTx t
        ⟨oid, item.id, uid, evid, item.eventDateID, item.ticketTypeID⟩) item.ticketTypeID 1)
        item.ticketTypeID with
    | none => simp only [hl] at h; cases h
    | some lid =>
    simp only [hl] at h
    cases hd : DecrementLotAvailableTx (IncrementTicketTypeSoldTx (CreateTicketWithIDTx t
        ⟨oid, item.id, uid, evid, item.eventDateID, item.ticketTypeID⟩) item.ticketTypeID 1)
        lid 1 with
    | none => simp only [hd] at h; cases h
    | some t3 =>
    simp only [hd] at h
    obtain ⟨d1, d2, d3, d4, d5, d6, d7, d8, dsum, dnn⟩ := DecrementLotAvailableTx_spec hd
    obtain ⟨e1, e2, e3, e4, e5, e6, esum, enn⟩ := ih t3 (c + 1) t2 c2 h
    refine ⟨?_, ?_, ?_, ?_, ?_, ?_, ?_, ?_⟩
    · exact e1.trans d1
    · exact e2.trans d2
    · exact e3.trans d5
    · exact e4.trans d6
    · exact e5.trans d7
    · exact e6.trans d8
    · rw [esum, d4, dsum]
      have hlen : ((t.tickets ++
          [(⟨oid, item.id, uid, evid, item.eventDateID, item.ticketTypeID⟩ : TicketRow)]).length : Int)
          = (t.tickets.length : Int) + 1 := by simp
      have havail : totalAvail (IncrementTicketTypeSoldTx (CreateTicketWithIDTx t
          ⟨oid, item.id, uid, evid, item.eventDateID, item.ticketTypeID⟩) item.ticketTypeID 1)
          = totalAvail t := rfl
      rw [havail]
      simp only [IncrementTicketTypeSoldTx, CreateTicketWithIDTx]
      omega
    · intro hnn
      exact enn (dnn (by omega) hnn)



theorem issueItems_spec (env : Env) (oid uid : String) :
    ∀ (items : List OrderItemRow) (t : DBState) (c : Nat) (t2 : DBState) (c2 : Nat),
      issueItems env oid uid items t c = some (t2, c2) →
      t2.orders = t.orders ∧ t2.orderItems = t.orderItems ∧
      t2.webhookEvents = t.webhookEvents ∧ t2.history = t.history ∧
      t2.eventDates = t.eventDates ∧ t2.events = t.events ∧
      (t2.tickets.length : Int) + totalAvail t2 = (t.tickets.length : Int) + totalAvail t ∧
      (lotsNonneg t → lotsNonneg t2) := by
  intro items
  induction items with
  | nil =>
    intro t c t2 c2 h
    simp only [issueItems, Option.some.injEq, Prod.mk.injEq] at h
    obtain ⟨h1, _⟩ := h
    subst h1
    exact ⟨rfl, rfl, rfl, rfl, rfl, rfl, rfl, fun hs => hs⟩
  | cons item rest ih =>
    intro t c t2 c2 h
    rw [issueItems] at h
    cases he : alookup t.eventDates item.eventDateID with
    | none => simp only [he] at h; cases h
    | some evid =>
    simp only [he] at h
    cases hc : t.events.contains evid with
    | false => rw [hc] at h; simp only [Bool.false_eq_true, if_false] at h; cases h
    | true =>
    rw [hc] at h
    simp only [if_true] at h
    cases htt : alookup t.ticketTypes item.ticketTypeID with
    | none => simp only [htt] at h; cases h
    | some tt =>
    simp only [htt] at h
    cases hiu : issueUnits env oid uid evid item item.quantity.toNat t c with
    | none => simp only [hiu] at h; cases h
    | some pr =>
    obtain ⟨tm, cm⟩ := pr
    simp only [hiu] at h
    obtain ⟨u1, u2, u3, u4, u5, u6, usum, unn⟩ := issueUnits_spec env oid uid evid item _ t c tm cm hiu
    obtain ⟨r1, r2, r3, r4, r5, r6, rsum, rnn⟩ := ih tm cm t2 c2 h
    refine ⟨r1.trans u1, r2.trans u2, r3.trans u3, r4.trans u4, r5.trans u5, r6.trans u6, ?_, ?_⟩
    · rw [rsum, usum]
    · intro hs
      exact rnn (unn hs)

theorem ClaimOrderProcessingTx_frame (s : DBState) (oid : String) :
    (ClaimOrderProcessingTx s oid).2.orderItems = s.orderItems ∧
    (ClaimOrderProcessingTx s oid).2.ticketTypes = s.ticketTypes ∧
    (ClaimOrderProcessingTx s oid).2.lots = s.lots ∧
    (ClaimOrderProcessingTx s oid).2.tickets = s.tickets ∧
    (ClaimOrderProcessingTx s oid).2.webhookEvents = s.webhookEvents ∧
    (ClaimOrderProcessingTx s oid).2.history = s.history ∧
    (ClaimOrderProcessingTx s oid).2.eventDates = s.eventDates ∧
    (ClaimOrderProcessingTx s oid).2.events = s.events := by
  unfold ClaimOrderProcessingTx
  cases alookup s.orders oid with
  | none => exact ⟨rfl, rfl, rfl, rfl, rfl, rfl, rfl, rfl⟩
  | some o =>
    by_cases hp : o.status = "PENDING" <;> simp [hp]

theorem ConfirmOrderTx_frame {s s2 : DBState} {oid : String}
    (h : ConfirmOrderTx s oid = some s2) :
    s2.orderItems = s.orderItems ∧ s2.ticketTypes = s.ticketTypes ∧
    s2.lots = s.lots ∧ s2.tickets = s.tickets ∧
    s2.webhookEvents = s.webhookEvents ∧ s2.history = s.history ∧
    s2.eventDates = s.eventDates ∧ s2.events = s.events := by
  unfold ConfirmOrderTx at h
  cases hl : alookup s.orders oid with
  | none => rw [hl] at h; cases h
  | some o =>
    rw [hl] at h
    by_cases hp : o.status = "PROCESSING"
    · simp only [if_pos hp, Option.some.injEq] at h
      subst h
      exact ⟨rfl, rfl, rfl, rfl, rfl, rfl, rfl, rfl⟩
    · simp only [if_neg hp] at h; cases h

theorem issuePhase_spec (env : Env) (s0 t : DBState) (oid uid pid cid : String)
    {o2 : Outcome} {s2 : DBState} (h : issuePhase env s0 t oid uid pid cid = (o2, s2)) :
    s2 = s0 ∨ (s2.orderItems = t.orderItems ∧
      s2.webhookEvents = t.webhookEvents ∧
      s2.eventDates = t.eventDates ∧ s2.events = t.events ∧
      (s2.tickets.length : Int) + totalAvail s2 = (t.tickets.length : Int) + totalAvail t ∧
      (lotsNonneg t → lotsNonneg s2)) := by
  unfold issuePhase at h
  cases hii : issueItems env oid uid (OrderItemsByOrderIDTx t oid) t 0 with
  | none =>
    simp only [hii] at h
    obtain ⟨_, h2⟩ := Prod.mk.injEq .. ▸ h
    exact Or.inl (by cases h; rfl)
  | some pr =>
    obtain ⟨t3, c3⟩ := pr
    simp only [hii] at h
    cases hcf : ConfirmOrderTx t3 oid with
    | none =>
      simp only [hcf] at h
      exact Or.inl (by cases h; rfl)
    | some t4 =>
      simp only [hcf] at h
      obtain ⟨i1, i2, i3, i4, i5, i6, isum, inn⟩ :=
        issueItems_spec env oid uid (OrderItemsByOrderIDTx t oid) t 0 t3 c3 hii
      obtain ⟨c1, c2eq, c3eq, c4, c5, c6, c7, c8⟩ := ConfirmOrderTx_frame hcf
      cases h
      refine Or.inr ⟨?_, ?_, ?_, ?_, ?_, ?_⟩
      · exact c1.trans i2
      · exact c5.trans i3
      · exact c7.trans i5
      · exact c8.trans i6
      · have h1 : totalAvail t4 = totalAvail t3 := by
          simp only [totalAvail, c3eq]
        show (t4.tickets.length : Int) + totalAvail t4 = (t.tickets.length : Int) + totalAvail t
        rw [c4, h1]
        exact isum
      · intro hs
        intro p hp
        change p ∈ t4.lots at hp
        rw [c3eq] at hp
        exact inn hs p hp

end Afterzin

namespace Afterzin

theorem saveGatewayIDs_frame (t : DBState) (oid pid cid : String) :
    (saveGatewayIDs t oid pid cid).orderItems = t.orderItems ∧
    (saveGatewayIDs t oid pid cid).ticketTypes = t.ticketTypes ∧
    (saveGatewayIDs t oid pid cid).lots = t.lots ∧
    (saveGatewayIDs t oid pid cid).tickets = t.tickets ∧
    (saveGatewayIDs t oid pid cid).webhookEvents = t.webhookEvents ∧
    (saveGatewayIDs t oid pid cid).history = t.history ∧
    (saveGatewayIDs t oid pid cid).eventDates = t.eventDates ∧
    (saveGatewayIDs t oid pid cid).events = t.events := by
  unfold saveGatewayIDs
  by_cases hpid : pid = "" <;> by_cases hcid : cid = "" <;>
    simp [hpid, hcid, SetOrderPagarmeOrderIDTx, SetOrderPagarmeChargeIDTx]

theorem processOrderPayment_spec (env : Env) (s : DBState) (oid pid cid : String)
    {o2 : Outcome} {s2 : DBState} (h : processOrderPayment env s oid pid cid = (o2, s2)) :
    s2.orderItems = s.orderItems ∧ s2.webhookEvents = s.webhookEvents ∧
    s2.eventDates = s.eventDates ∧ s2.events = s.events ∧
    (s2.tickets.length : Int) + totalAvail s2 = (s.tickets.length : Int) + totalAvail s ∧
    (lotsNonneg s → lotsNonneg s2) := by
  obtain ⟨f1, f2, f3, f4, f5, f6, f7, f8⟩ := ClaimOrderProcessingTx_frame s oid
  simp only [processOrderPayment] at h
  cases hb : (ClaimOrderProcessingTx s oid).1 with
  | false =>
    rw [hb] at h
    simp only [Bool.false_eq_true, if_false] at h
    cases h
    exact ⟨rfl, rfl, rfl, rfl, rfl, fun hs => hs⟩
  | true =>
    rw [hb] at h
    simp only [if_true] at h
    obtain ⟨g1, g2, g3, g4, g5, g6, g7, g8⟩ :=
      saveGatewayIDs_frame (ClaimOrderProcessingTx s oid).2 oid pid cid
    -- facts about t2 relative to s
    have w1 : (saveGatewayIDs (ClaimOrderProcessingTx s oid).2 oid pid cid).orderItems
        = s.orderItems := g1.trans f1
    have w2 : (saveGatewayIDs (ClaimOrderProcessingTx s oid).2 oid pid cid).webhookEvents
        = s.webhookEvents := g5.trans f5
    have w3 : (saveGatewayIDs (ClaimOrderProcessingTx s oid).2 oid pid cid).eventDates
        = s.eventDates := g7.trans f7
    have w4 : (saveGatewayIDs (ClaimOrderProcessingTx s oid).2 oid pid cid).events
        = s.events := g8.trans f8
    have w5 : (saveGatewayIDs (ClaimOrderProcessingTx s oid).2 oid pid cid).tickets
        = s.tickets := g4.trans f4
    have w6 : (saveGatewayIDs (ClaimOrderProcessingTx s oid).2 oid pid cid).lots
        = s.lots := g3.trans f3
    have w7 : totalAvail (saveGatewayIDs (ClaimOrderProcessingTx s oid).2 oid pid cid)
        = totalAvail s := by simp only [totalAvail, w6]
    have w8 : lotsNonneg s → lotsNonneg (saveGatewayIDs (ClaimOrderProcessingTx s oid).2 oid pid cid) := by
      intro hs p hp
      rw [w6] at hp
      exact hs p hp
    generalize hg : saveGatewayIDs (ClaimOrderProcessingTx s oid).2 oid pid cid = T2 at h w1 w2 w3 w4 w5 w6 w7 w8
    cases hob : OrderByIDTx T2 oid with
    | none =>
      simp only [hob] at h
      cases h
      exact ⟨rfl, rfl, rfl, rfl, rfl, fun hs => hs⟩
    | some trip =>
      obtain ⟨uid, st, total⟩ := trip
      simp only [hob] at h
      by_cases huid : uid = ""
      · simp only [if_pos huid] at h
        cases h
        exact ⟨rfl, rfl, rfl, rfl, rfl, fun hs => hs⟩
      · simp only [if_neg huid] at h
        by_cases hpid : pid = ""
        · simp only [if_pos hpid] at h
          rcases issuePhase_spec env s T2 oid uid pid cid h with hs0 | ⟨p1, p2, p3, p4, p5, p6⟩
          · subst hs0
            exact ⟨rfl, rfl, rfl, rfl, rfl, fun hs => hs⟩
          · refine ⟨p1.trans w1, p2.trans w2, p3.trans w3, p4.trans w4, ?_, ?_⟩
            · rw [p5, w5, w7]
            · intro hs
              exact p6 (w8 hs)
        · simp only [if_neg hpid] at h
          cases hgt : env.gate pid with
          | none =>
            simp only [hgt] at h
            cases h
            exact ⟨rfl, rfl, rfl, rfl, rfl, fun hs => hs⟩
          | some paid =>
            simp only [hgt] at h
            by_cases hne : paid ≠ expectedCentavos total
            · simp only [if_pos hne] at h
              cases h
              refine ⟨?_, ?_, ?_, ?_, ?_, ?_⟩
              · exact w1
              · exact w2
              · exact w3
              · exact w4
              · show (T2.tickets.length : Int) + totalAvail T2
                    = (s.tickets.length : Int) + totalAvail s
                rw [w5, w7]
              · intro hs p hp
                change p ∈ T2.lots at hp
                rw [w6] at hp
                exact hs p hp
            · simp only [if_neg hne] at h
              rcases issuePhase_spec env s T2 oid uid pid cid h with hs0 | ⟨p1, p2, p3, p4, p5, p6⟩
              · subst hs0
                exact ⟨rfl, rfl, rfl, rfl, rfl, fun hs => hs⟩
              · refine ⟨p1.trans w1, p2.trans w2, p3.trans w3, p4.trans w4, ?_, ?_⟩
                · rw [p5, w5, w7]
                · intro hs
                  exact p6 (w8 hs)

end Afterzin

namespace Afterzin

theorem handleOrderPaid_spec (env : Env) (s : DBState) (ev : WebhookEvent) :
    (handleOrderPaid env s ev).orderItems = s.orderItems ∧
    (handleOrderPaid env s ev).webhookEvents = s.webhookEvents ∧
    (handleOrderPaid env s ev).eventDates = s.eventDates ∧
    (handleOrderPaid env s ev).events = s.events ∧
    ((handleOrderPaid env s ev).tickets.length : Int) + totalAvail (handleOrderPaid env s ev)
      = (s.tickets.length : Int) + totalAvail s ∧
    (lotsNonneg s → lotsNonneg (handleOrderPaid env s ev)) := by
  cases hd : ev.data with
  | none =>
    simp [handleOrderPaid, hd]
  | some d =>
    by_cases h1 : d.code = ""
    · simp [handleOrderPaid, hd, if_pos h1]
    · cases h2 : PagarmeWebhookProcessedForOrder s d.code "order.paid" with
      | true =>
        simp [handleOrderPaid, hd, if_neg h1, h2, if_true]
      | false =>
        cases h3 : PagarmeWebhookProcessedForOrder s d.code "charge.paid" with
        | true =>
          simp [handleOrderPaid, hd, if_neg h1, h2, h3, Bool.false_eq_true, if_false, if_true]
        | false =>
          simp only [handleOrderPaid, hd, if_neg h1, h2, h3, Bool.false_eq_true, if_false]
          exact processOrderPayment_spec env s d.code d.id d.chargeID rfl

theorem handleChargePaid_spec (env : Env) (s : DBState) (ev : WebhookEvent) :
    (handleChargePaid env s ev).orderItems = s.orderItems ∧
    (handleChargePaid env s ev).webhookEvents = s.webhookEvents ∧
    (handleChargePaid env s ev).eventDates = s.eventDates ∧
    (handleChargePaid env s ev).events = s.events ∧
    ((handleChargePaid env s ev).tickets.length : Int) + totalAvail (handleChargePaid env s ev)
      = (s.tickets.length : Int) + totalAvail s ∧
    (lotsNonneg s → lotsNonneg (handleChargePaid env s ev)) := by
  cases hd : ev.data with
  | none =>
    simp [handleChargePaid, hd]
  | some d =>
    cases ho : d.order with
    | none =>
      simp [handleChargePaid, hd, ho]
    | some ord =>
      obtain ⟨ocode, orid⟩ := ord
      by_cases h1 : ocode = ""
      · simp [handleChargePaid, hd, ho, if_pos h1]
      · cases h2 : PagarmeWebhookProcessedForOrder s ocode "order.paid" with
        | true =>
          simp [handleChargePaid, hd, ho, if_neg h1, h2, if_true]
        | false =>
          cases h3 : PagarmeWebhookProcessedForOrder s ocode "charge.paid" with
          | true =>
            simp [handleChargePaid, hd, ho, if_neg h1, h2, h3, Bool.false_eq_true,
              if_false, if_true]
          | false =>
            simp only [handleChargePaid, hd, ho, if_neg h1, h2, h3, Bool.false_eq_true, if_false]
            exact processOrderPayment_spec env s ocode orid d.id rfl

theorem InsertPagarmeWebhookEvent_frame (s : DBState) (eid ety : String) :
    (InsertPagarmeWebhookEvent s eid ety).orders = s.orders ∧
    (InsertPagarmeWebhookEvent s eid ety).orderItems = s.orderItems ∧
    (InsertPagarmeWebhookEvent s eid ety).ticketTypes = s.ticketTypes ∧
    (InsertPagarmeWebhookEvent s eid ety).lots = s.lots ∧
    (InsertPagarmeWebhookEvent s eid ety).tickets = s.tickets ∧
    (InsertPagarmeWebhookEvent s eid ety).history = s.history ∧
    (InsertPagarmeWebhookEvent s eid ety).eventDates = s.eventDates ∧
    (InsertPagarmeWebhookEvent s eid ety).events = s.events := by
  unfold InsertPagarmeWebhookEvent
  by_cases h : PagarmeWebhookEventExists s eid <;> simp [h]

theorem HandleWebhook_inv (env : Env) (s : DBState) (ev : WebhookEvent) :
    ((HandleWebhook env s ev).2.tickets.length : Int) + totalAvail (HandleWebhook env s ev).2
      = (s.tickets.length : Int) + totalAvail s ∧
    (lotsNonneg s → lotsNonneg (HandleWebhook env s ev).2) := by
  cases hdup : PagarmeWebhookEventExists s ev.id with
  | true =>
    simp [HandleWebhook, hdup]
  | false =>
    obtain ⟨j1, j2, j3, j4, j5, j6, j7, j8⟩ := InsertPagarmeWebhookEvent_frame s ev.id ev.type
    simp only [HandleWebhook, hdup, Bool.false_eq_true, if_false]
    generalize hs1 : InsertPagarmeWebhookEvent s ev.id ev.type = s1 at j1 j2 j3 j4 j5 j6 j7 j8 ⊢
    have key : ∀ x : DBState,
        (x.tickets.length : Int) + totalAvail x = (s1.tickets.length : Int) + totalAvail s1 →
        (lotsNonneg s1 → lotsNonneg x) →
        (((MarkPagarmeWebhookEventProcessedAt x ev.id).tickets.length : Int)
            + totalAvail (MarkPagarmeWebhookEventProcessedAt x ev.id)
          = (s.tickets.length : Int) + totalAvail s ∧
        (lotsNonneg s → lotsNonneg (MarkPagarmeWebhookEventProcessedAt x ev.id))) := by
      intro x hsum hnn
      constructor
      · show (x.tickets.length : Int) + totalAvail x = (s.tickets.length : Int) + totalAvail s
        rw [hsum, j5]
        have hta : totalAvail s1 = totalAvail s := by simp only [totalAvail, j4]
        rw [hta]
      · intro hs
        intro p hp
        change p ∈ x.lots at hp
        have hnn1 : lotsNonneg s1 := by
          intro r hr
          rw [j4] at hr
          exact hs r hr
        exact hnn hnn1 p hp
    by_cases hty1 : ev.type = "order.paid"
    · simp only [if_pos hty1]
      obtain ⟨_, _, _, _, hsum, hnn⟩ := handleOrderPaid_spec env s1 ev
      exact key _ hsum hnn
    · simp only [if_neg hty1]
      by_cases hty2 : ev.type = "charge.paid"
      · simp only [if_pos hty2]
        obtain ⟨_, _, _, _, hsum, hnn⟩ := handleChargePaid_spec env s1 ev
        exact key _ hsum hnn
      · simp only [if_neg hty2]
        exact key s1 rfl (fun hs => hs)

theorem deliverAll_inv (runs : List (Env × WebhookEvent)) :
    ∀ s : DBState,
      ((deliverAll runs s).tickets.length : Int) + totalAvail (deliverAll runs s)
        = (s.tickets.length : Int) + totalAvail s ∧
      (lotsNonneg s → lotsNonneg (deliverAll runs s)) := by
  induction runs with
  | nil => exact fun s => ⟨rfl, fun hs => hs⟩
  | cons r rest ih =>
    intro s
    obtain ⟨hsum, hnn⟩ := HandleWebhook_inv r.1 s r.2
    obtain ⟨rsum, rnn⟩ := ih (HandleWebhook r.1 s r.2).2
    have hfold : deliverAll (r :: rest) s = deliverAll rest (HandleWebhook r.1 s r.2).2 := rfl
    rw [hfold]
    constructor
    · rw [rsum, hsum]
    · intro hs
      exact rnn (hnn hs)

end Afterzin

namespace Afterzin

theorem exists_iff_mem {s : DBState} {i : String} :
    PagarmeWebhookEventExists s i = true ↔ ∃ w ∈ s.webhookEvents, w.pagarmeEventID = i := by
  simp [PagarmeWebhookEventExists, List.any_eq_true]

theorem processed_iff_mem {s : DBState} {i : String} :
    WebhookEventProcessed s i = true ↔
      ∃ w ∈ s.webhookEvents, w.pagarmeEventID = i ∧ w.processed = true := by
  simp [WebhookEventProcessed, List.any_eq_true]

theorem exists_mark (x : DBState) (i j : String) :
    PagarmeWebhookEventExists (MarkPagarmeWebhookEventProcessedAt x j) i
      = PagarmeWebhookEventExists x i := by
  have hbool : ∀ b c : Bool, (b = true ↔ c = true) → b = c := by decide
  apply hbool
  rw [exists_iff_mem, exists_iff_mem]
  constructor
  · rintro ⟨w, hw, hwi⟩
    obtain ⟨w0, hw0, hupd⟩ := List.mem_map.mp hw
    refine ⟨w0, hw0, ?_⟩
    rw [← hwi, ← hupd]
    by_cases h : w0.pagarmeEventID = j <;> simp [h]
  · rintro ⟨w, hw, hwi⟩
    by_cases h : w.pagarmeEventID = j
    · exact ⟨{ w with processed := true }, List.mem_map.mpr ⟨w, hw, by simp [h]⟩, by simpa using hwi⟩
    · exact ⟨w, List.mem_map.mpr ⟨w, hw, by simp [h]⟩, hwi⟩

theorem exists_insert_self (s : DBState) (i ty : String) :
    PagarmeWebhookEventExists (InsertPagarmeWebhookEvent s i ty) i = true := by
  unfold InsertPagarmeWebhookEvent
  by_cases h : PagarmeWebhookEventExists s i
  · simp [h]
  · simp only [h, Bool.false_eq_true, if_false]
    rw [exists_iff_mem]
    exact ⟨⟨i, ty, false⟩, by simp⟩

theorem exists_webhookEvents_congr {x y : DBState} (h : x.webhookEvents = y.webhookEvents)
    (i : String) : PagarmeWebhookEventExists x i = PagarmeWebhookEventExists y i := by
  simp [PagarmeWebhookEventExists, h]

theorem processed_mark_of_exists {x : DBState} {i : String}
    (h : PagarmeWebhookEventExists x i = true) :
    WebhookEventProcessed (MarkPagarmeWebhookEventProcessedAt x i) i = true := by
  rw [exists_iff_mem] at h
  obtain ⟨w, hw, hwi⟩ := h
  rw [processed_iff_mem]
  refine ⟨{ w with processed := true }, ?_, ?_, rfl⟩
  · simp only [MarkPagarmeWebhookEventProcessedAt]
    refine List.mem_map.mpr ⟨w, hw, ?_⟩
    simp [hwi]
  · simpa using hwi

theorem HandleWebhook_status (env : Env) (s : DBState) (ev : WebhookEvent) :
    (HandleWebhook env s ev).1 = 200 := by
  unfold HandleWebhook
  by_cases h : PagarmeWebhookEventExists s ev.id <;> simp [h]

theorem HandleWebhook_exists_after (env : Env) (s : DBState) (ev : WebhookEvent) :
    PagarmeWebhookEventExists (HandleWebhook env s ev).2 ev.id = true := by
  cases hdup : PagarmeWebhookEventExists s ev.id with
  | true => simp [HandleWebhook, hdup]
  | false =>
    simp only [HandleWebhook, hdup, Bool.false_eq_true, if_false]
    rw [exists_mark]
    have hins := exists_insert_self s ev.id ev.type
    by_cases hty1 : ev.type = "order.paid"
    · simp only [if_pos hty1]
      obtain ⟨_, hw, _⟩ := handleOrderPaid_spec env (InsertPagarmeWebhookEvent s ev.id ev.type) ev
      rw [exists_webhookEvents_congr hw]
      exact hins
    · simp only [if_neg hty1]
      by_cases hty2 : ev.type = "charge.paid"
      · simp only [if_pos hty2]
        obtain ⟨_, hw, _⟩ := handleChargePaid_spec env (InsertPagarmeWebhookEvent s ev.id ev.type) ev
        rw [exists_webhookEvents_congr hw]
        exact hins
      · simp only [if_neg hty2]
        exact hins

theorem HandleWebhook_processed_after (env : Env) (s : DBState) (ev : WebhookEvent)
    (hdup : PagarmeWebhookEventExists s ev.id = false) :
    WebhookEventProcessed (HandleWebhook env s ev).2 ev.id = true := by
  simp only [HandleWebhook, hdup, Bool.false_eq_true, if_false]
  have hins := exists_insert_self s ev.id ev.type
  by_cases hty1 : ev.type = "order.paid"
  · simp only [if_pos hty1]
    obtain ⟨_, hw, _⟩ := handleOrderPaid_spec env (InsertPagarmeWebhookEvent s ev.id ev.type) ev
    exact processed_mark_of_exists ((exists_webhookEvents_congr hw ev.id).trans hins)
  · simp only [if_neg hty1]
    by_cases hty2 : ev.type = "charge.paid"
    · simp only [if_pos hty2]
      obtain ⟨_, hw, _⟩ := handleChargePaid_spec env (InsertPagarmeWebhookEvent s ev.id ev.type) ev
      exact processed_mark_of_exists ((exists_webhookEvents_congr hw ev.id).trans hins)
    · simp only [if_neg hty2]
      exact processed_mark_of_exists hins

end Afterzin

namespace Afterzin

theorem aupdate_aupdate {α : Type} (l : List (String × α)) (k : String) (f g : α → α) :
    aupdate (aupdate l k f) k g = aupdate l k (fun v => g (f v)) := by
  induction l with
  | nil => rfl
  | cons p rest ih =>
    by_cases h : p.1 = k
    · simp [aupdate, h]
    · simp [aupdate, h, ih]

theorem ClaimOrderProcessingTx_pending {s : DBState} {oid : String} {o : OrderRow}
    (ho : alookup s.orders oid = some o) (hst : o.status = "PENDING") :
    ClaimOrderProcessingTx s oid
      = (true, { s with orders := aupdate s.orders oid (setStatus "PROCESSING") }) := by
  simp [ClaimOrderProcessingTx, ho, hst]

theorem ClaimOrderProcessingTx_not_pending {s : DBState} {oid : String}
    (h : ∀ o, alookup s.orders oid = some o → o.status ≠ "PENDING") :
    ClaimOrderProcessingTx s oid = (false, s) := by
  unfold ClaimOrderProcessingTx
  cases hl : alookup s.orders oid with
  | none => rfl
  | some o => simp [h o hl]

theorem saveGatewayIDs_order_fields {t : DBState} {oid : String} {o : OrderRow}
    (pid cid : String) (ho : alookup t.orders oid = some o) :
    ∃ r, alookup (saveGatewayIDs t oid pid cid).orders oid = some r ∧
      r.status = o.status ∧ r.userID = o.userID ∧ r.total = o.total := by
  by_cases hp : pid = "" <;> by_cases hc : cid = "" <;>
    simp [saveGatewayIDs, SetOrderPagarmeOrderIDTx, SetOrderPagarmeChargeIDTx, hp, hc,
      alookup_aupdate_self, ho, setPagOrder, setPagCharge]

/-- Symbolic run of the fraud branch of `processOrderPayment`: an order
found `PENDING` with a non-empty user, a non-empty gateway order id, and a
gateway answer different from the expected centavos amount yields the
`fraudCommitted` outcome, whose committed state appends the single
`amount_mismatch` audit row to the state after the claim and the id
saves. -/
theorem processOrderPayment_fraud_run (env : Env) (s : DBState) (oid pid cid : String)
    (o : OrderRow) (paid : Int)
    (ho : alookup s.orders oid = some o) (hst : o.status = "PENDING") (hu : o.userID ≠ "")
    (hpid : pid ≠ "") (hg : env.gate pid = some paid)
    (hne : paid ≠ expectedCentavos o.total) :
    processOrderPayment env s oid pid cid
      = (Outcome.fraudCommitted, RecordOrderStatusChange
          (saveGatewayIDs { s with orders := aupdate s.orders oid (setStatus "PROCESSING") }
            oid pid cid)
          oid "PROCESSING" "FRAUD_ALERT" "amount_mismatch" "" pid cid) := by
  have hclaim := ClaimOrderProcessingTx_pending ho hst
  have ho2 : alookup ({ s with orders := aupdate s.orders oid (setStatus "PROCESSING") } : DBState).orders oid
      = some (setStatus "PROCESSING" o) := by
    show alookup (aupdate s.orders oid (setStatus "PROCESSING")) oid = _
    rw [alookup_aupdate_self, ho]
    rfl
  obtain ⟨r, hr, hrs, hru, hrt⟩ := saveGatewayIDs_order_fields pid cid ho2
  have hob : OrderByIDTx (saveGatewayIDs
      { s with orders := aupdate s.orders oid (setStatus "PROCESSING") } oid pid cid) oid
      = some (o.userID, "PROCESSING", o.total) := by
    unfold OrderByIDTx
    rw [hr]
    simp [hrs, hru, hrt, setStatus]
  simp only [processOrderPayment, hclaim, if_true, hob, hu, if_neg, hpid, hg, hne, if_false]
  simp [hu, hpid, hg, hne]

/-- Symbolic run of the gateway-error branch of `processOrderPayment`: an
order found `PENDING` with a non-empty user and gateway order id whose
settled-amount fetch fails yields the `gatewayFailed` outcome and the
unchanged pre-transaction state: the rollback discards the claim, the id
saves and the failed-validation audit row alike. -/
theorem processOrderPayment_gateway_failure (env : Env) (s : DBState) (oid pid cid : String)
    (o : OrderRow)
    (ho : alookup s.orders oid = some o) (hst : o.status = "PENDING") (hu : o.userID ≠ "")
    (hpid : pid ≠ "") (hg : env.gate pid = none) :
    processOrderPayment env s oid pid cid = (Outcome.gatewayFailed, s) := by
  have hclaim := ClaimOrderProcessingTx_pending ho hst
  have ho2 : alookup ({ s with orders := aupdate s.orders oid (setStatus "PROCESSING") } : DBState).orders oid
      = some (setStatus "PROCESSING" o) := by
    show alookup (aupdate s.orders oid (setStatus "PROCESSING")) oid = _
    rw [alookup_aupdate_self, ho]
    rfl
  obtain ⟨r, hr, hrs, hru, hrt⟩ := saveGatewayIDs_order_fields pid cid ho2
  have hob : OrderByIDTx (saveGatewayIDs
      { s with orders := aupdate s.orders oid (setStatus "PROCESSING") } oid pid cid) oid
      = some (o.userID, "PROCESSING", o.total) := by
    unfold OrderByIDTx
    rw [hr]
    simp [hrs, hru, hrt, setStatus]
  simp only [processOrderPayment, hclaim, if_true, hob]
  simp [hu, hpid, hg]

end Afterzin

namespace Afterzin

theorem issuePhase_cases (env : Env) (s0 t : DBState) (oid uid pid cid : String)
    {o2 : Outcome} {s2 : DBState} (h : issuePhase env s0 t oid uid pid cid = (o2, s2)) :
    o2 = Outcome.confirmed ∨ s2 = s0 := by
  unfold issuePhase at h
  cases hii : issueItems env oid uid (OrderItemsByOrderIDTx t oid) t 0 with
  | none =>
    simp only [hii] at h
    cases h
    exact Or.inr rfl
  | some pr =>
    obtain ⟨t3, c3⟩ := pr
    simp only [hii] at h
    cases hcf : ConfirmOrderTx t3 oid with
    | none =>
      simp only [hcf] at h
      cases h
      exact Or.inr rfl
    | some t4 =>
      simp only [hcf] at h
      cases h
      exact Or.inl rfl

/-- Rollback totality: every `processOrderPayment` run that does not end
in one of the two committing outcomes (the committed fraud record or the
confirmed order) leaves the state exactly as it was, because the deferred
rollback discards the whole transaction. -/
theorem processOrderPayment_rollback (env : Env) (s : DBState) (oid pid cid : String)
    {o2 : Outcome} {s2 : DBState} (h : processOrderPayment env s oid pid cid = (o2, s2)) :
    o2 = Outcome.fraudCommitted ∨ o2 = Outcome.confirmed ∨ s2 = s := by
  simp only [processOrderPayment] at h
  cases hb : (ClaimOrderProcessingTx s oid).1 with
  | false =>
    rw [hb] at h
    simp only [Bool.false_eq_true, if_false] at h
    cases h
    exact Or.inr (Or.inr rfl)
  | true =>
    rw [hb] at h
    simp only [if_true] at h
    cases hob : OrderByIDTx (saveGatewayIDs (ClaimOrderProcessingTx s oid).2 oid pid cid) oid with
    | none =>
      simp only [hob] at h
      cases h
      exact Or.inr (Or.inr rfl)
    | some trip =>
      obtain ⟨uid, st, total⟩ := trip
      simp only [hob] at h
      by_cases huid : uid = ""
      · simp only [if_pos huid] at h
        cases h
        exact Or.inr (Or.inr rfl)
      · simp only [if_neg huid] at h
        by_cases hpid : pid = ""
        · simp only [if_pos hpid] at h
          rcases issuePhase_cases env s _ oid uid pid cid h with hc | hs0
          · exact Or.inr (Or.inl hc)
          · exact Or.inr (Or.inr hs0)
        · simp only [if_neg hpid] at h
          cases hgt : env.gate pid with
          | none =>
            simp only [hgt] at h
            cases h
            exact Or.inr (Or.inr rfl)
          | some paid =>
            simp only [hgt] at h
            by_cases hne : paid ≠ expectedCentavos total
            · simp only [if_pos hne] at h
              cases h
              exact Or.inl rfl
            · simp only [if_neg hne] at h
              rcases issuePhase_cases env s _ oid uid pid cid h with hc | hs0
              · exact Or.inr (Or.inl hc)
              · exact Or.inr (Or.inr hs0)

theorem issueUnits_gate (g1 g2 : String → Option Int) (fi fs : Nat → Bool)
    (oid uid evid : String) (item : OrderItemRow) (q : Nat) :
    ∀ (t : DBState) (c : Nat),
      issueUnits ⟨g1, fi, fs⟩ oid uid evid item q t c
        = issueUnits ⟨g2, fi, fs⟩ oid uid evid item q t c := by
  induction q with
  | zero => intro t c; rfl
  | succ q ih =>
    intro t c
    rw [issueUnits, issueUnits]
    dsimp only
    cases hfi : fi c with
    | true => simp only [hfi, if_true]
    | false =>
      simp only [hfi, Bool.false_eq_true, if_false]
      cases hfs : fs c with
      | true => simp only [hfs, if_true]
      | false =>
        simp only [hfs, Bool.false_eq_true, if_false]
        cases hl : LotIDByTicketTypeIDTx (IncrementTicketTypeSoldTx (CreateTicketWithIDTx t
            ⟨oid, item.id, uid, evid, item.eventDateID, item.ticketTypeID⟩) item.ticketTypeID 1)
            item.ticketTypeID with
        | none => simp only [hl]
        | some lid =>
          simp only [hl]
          cases hd : DecrementLotAvailableTx (IncrementTicketTypeSoldTx (CreateTicketWithIDTx t
              ⟨oid, item.id, uid, evid, item.eventDateID, item.ticketTypeID⟩) item.ticketTypeID 1)
              lid 1 with
          | none => simp only [hd]
          | some t3 =>
            simp only [hd]
            exact ih t3 (c + 1)

theorem issueItems_gate (g1 g2 : String → Option Int) (fi fs : Nat → Bool) (oid uid : String)
    (items : List OrderItemRow) :
    ∀ (t : DBState) (c : Nat),
      issueItems ⟨g1, fi, fs⟩ oid uid items t c = issueItems ⟨g2, fi, fs⟩ oid uid items t c := by
  induction items with
  | nil => intro t c; rfl
  | cons item rest ih =>
    intro t c
    rw [issueItems, issueItems]
    cases he : alookup t.eventDates item.eventDateID with
    | none => simp only [he]
    | some evid =>
      simp only [he]
      cases hc : t.events.contains evid with
      | false => simp only [hc, Bool.false_eq_true, if_false]
      | true =>
        simp only [hc, if_true]
        cases htt : alookup t.ticketTypes item.ticketTypeID with
        | none => simp only [htt]
        | some tt =>
          simp only [htt]
          rw [issueUnits_gate g1 g2]
          cases hiu : issueUnits ⟨g2, fi, fs⟩ oid uid evid item item.quantity.toNat t c with
          | none => simp only [hiu]
          | some pr =>
            simp only [hiu]
            exact ih pr.1 pr.2

theorem issuePhase_gate (g1 g2 : String → Option Int) (fi fs : Nat → Bool)
    (s0 t : DBState) (oid uid pid cid : String) :
    issuePhase ⟨g1, fi, fs⟩ s0 t oid uid pid cid = issuePhase ⟨g2, fi, fs⟩ s0 t oid uid pid cid := by
  unfold issuePhase
  dsimp only
  rw [issueItems_gate g1 g2]

/-- Gateway independence of the skip-validation path: with an empty
remote gateway order id, `processOrderPayment` never consults the
gateway, so its result does not depend on the gateway's answers. -/
theorem processOrderPayment_gate (g1 g2 : String → Option Int) (fi fs : Nat → Bool)
    (s : DBState) (oid cid : String) :
    processOrderPayment ⟨g1, fi, fs⟩ s oid "" cid = processOrderPayment ⟨g2, fi, fs⟩ s oid "" cid := by
  simp only [processOrderPayment]
  cases (ClaimOrderProcessingTx s oid).1 with
  | false => rfl
  | true =>
    simp only [if_true]
    cases OrderByIDTx (saveGatewayIDs (ClaimOrderProcessingTx s oid).2 oid "" cid) oid with
    | none => rfl
    | some trip =>
      obtain ⟨uid, st, total⟩ := trip
      simp only []
      by_cases huid : uid = ""
      · simp [huid]
      · simp only [if_neg huid, if_pos rfl]
        exact issuePhase_gate g1 g2 fi fs s _ oid uid "" cid

end Afterzin

namespace Afterzin

theorem totalAvail_nonneg {s : DBState} (h : lotsNonneg s) : 0 ≤ totalAvail s := by
  apply List.sum_nonneg
  intro x hx
  obtain ⟨p, hp, hpx⟩ := List.mem_map.mp hx
  rw [← hpx]
  exact h p hp

/-- C4: the lot decrement takes effect exactly when the lot exists and
has at least the requested quantity available, and across any sequence of
webhook deliveries (any gateway answers, any write faults) every lot's
available counter stays non-negative and the number of tickets ever
created is bounded by the initial tickets plus the initial total
availability. -/
theorem claim_c4 :
    (∀ (s : DBState) (lid : String) (n : Int),
      (∃ s2, DecrementLotAvailableTx s lid n = some s2) ↔
        ∃ lot, alookup s.lots lid = some lot ∧ n ≤ lot.availableQuantity) ∧
    (∀ (runs : List (Env × WebhookEvent)) (s : DBState), lotsNonneg s →
      lotsNonneg (deliverAll runs s) ∧
      ((deliverAll runs s).tickets.length : Int) ≤ (s.tickets.length : Int) + totalAvail s) := by
  constructor
  · intro s lid n
    constructor
    · rintro ⟨s2, h⟩
      obtain ⟨lot, hlot, hle, _⟩ := DecrementLotAvailableTx_some h
      exact ⟨lot, hlot, hle⟩
    · rintro ⟨lot, hlot, hle⟩
      refine ⟨{ s with lots := aupdate s.lots lid (subAvail n) }, ?_⟩
      unfold DecrementLotAvailableTx
      rw [hlot]
      simp [hle]
  · intro runs s hs
    obtain ⟨hsum, hnn⟩ := deliverAll_inv runs s
    refine ⟨hnn hs, ?_⟩
    have h2 := totalAvail_nonneg (hnn hs)
    omega

/-- C4 witness: on the concrete scenario delivery the invariant holds
with all hypotheses discharged. -/
theorem claim_c4_witness :
    lotsNonneg (deliverAll [(okEnv, evA)] scenarioState) ∧
    ((deliverAll [(okEnv, evA)] scenarioState).tickets.length : Int)
      ≤ (scenarioState.tickets.length : Int) + totalAvail scenarioState :=
  claim_c4.2 [(okEnv, evA)] scenarioState (by decide)

/-- C5: a notification whose remote event id is already recorded is
acknowledged with 200 and performs no processing and no mutation at all,
and hence delivering any notification twice leaves the state of the
first delivery untouched while still acknowledging 200. -/
theorem claim_c5 :
    (∀ (env : Env) (s : DBState) (ev : WebhookEvent),
      PagarmeWebhookEventExists s ev.id = true → HandleWebhook env s ev = (200, s)) ∧
    (∀ (env1 env2 : Env) (s : DBState) (ev : WebhookEvent),
      HandleWebhook env2 (HandleWebhook env1 s ev).2 ev = (200, (HandleWebhook env1 s ev).2)) := by
  constructor
  · intro env s ev h
    simp [HandleWebhook, h]
  · intro env1 env2 s ev
    have hex := HandleWebhook_exists_after env1 s ev
    generalize (HandleWebhook env1 s ev).2 = s1 at hex ⊢
    simp [HandleWebhook, hex]

/-- C5 witness: redelivering `evt-1` to a state that already recorded it
is a 200-acknowledged no-op. -/
theorem claim_c5_witness : HandleWebhook okEnv dupState evA = (200, dupState) :=
  claim_c5.1 okEnv dupState evA (by decide)

/-- C7: the order claim succeeds exactly on a `PENDING` order, in which
case it atomically rewrites the status to `PROCESSING`; on any other
status it returns false and leaves the store untouched. -/
theorem claim_c7 (s : DBState) (oid : String) (o : OrderRow)
    (ho : alookup s.orders oid = some o) :
    ((ClaimOrderProcessingTx s oid).1 = true ↔ o.status = "PENDING") ∧
    (o.status = "PENDING" →
      ClaimOrderProcessingTx s oid
        = (true, { s with orders := aupdate s.orders oid (setStatus "PROCESSING") }) ∧
      alookup (ClaimOrderProcessingTx s oid).2.orders oid = some (setStatus "PROCESSING" o)) ∧
    (o.status ≠ "PENDING" → ClaimOrderProcessingTx s oid = (false, s)) := by
  by_cases hst : o.status = "PENDING"
  · have hrun := ClaimOrderProcessingTx_pending ho hst
    refine ⟨by simp [hrun, hst], fun _ => ⟨hrun, ?_⟩, fun hn => absurd hst hn⟩
    rw [hrun]
    show alookup (aupdate s.orders oid (setStatus "PROCESSING")) oid = _
    rw [alookup_aupdate_self, ho]
    rfl
  · have hrun : ClaimOrderProcessingTx s oid = (false, s) := by
      apply ClaimOrderProcessingTx_not_pending
      intro o2 ho2
      rw [ho] at ho2
      cases ho2
      exact hst
    refine ⟨by simp [hrun, hst], fun hp => absurd hp hst, fun _ => hrun⟩

/-- C7 witness: on the scenario's `PENDING` order the claim succeeds and
rewrites the status; instantiating the theorem discharges its lookup
hypothesis at the concrete store. -/
theorem claim_c7_witness :
    ((ClaimOrderProcessingTx scenarioState "o1").1 = true ↔
      OrderRow.status ⟨"u1", "PENDING", 300, none, none⟩ = "PENDING") ∧
    (OrderRow.status ⟨"u1", "PENDING", 300, none, none⟩ = "PENDING" →
      ClaimOrderProcessingTx scenarioState "o1"
        = (true, { scenarioState with
            orders := aupdate scenarioState.orders "o1" (setStatus "PROCESSING") }) ∧
      alookup (ClaimOrderProcessingTx scenarioState "o1").2.orders "o1"
        = some (setStatus "PROCESSING" ⟨"u1", "PENDING", 300, none, none⟩)) ∧
    (OrderRow.status ⟨"u1", "PENDING", 300, none, none⟩ ≠ "PENDING" →
      ClaimOrderProcessingTx scenarioState "o1" = (false, scenarioState)) :=
  claim_c7 scenarioState "o1" ⟨"u1", "PENDING", 300, none, none⟩ (by decide)

/-- C8 (spec §8 Scenario A): on the 3-unit order totalling 300.00 with
the gateway reporting 30000 settled centavos, the order.paid delivery is
acknowledged 200, creates exactly 3 tickets, moves the lot from 10 to 7
available, the ticket type from 0 to 3 sold, and leaves the order PAID
with its gateway ids stored. -/
theorem claim_c8 :
    (HandleWebhook okEnv scenarioState evA).1 = 200 ∧
    (HandleWebhook okEnv scenarioState evA).2.tickets.length = 3 ∧
    alookup (HandleWebhook okEnv scenarioState evA).2.orders "o1"
      = some ⟨"u1", "PAID", 300, some "pg1", some "ch1"⟩ ∧
    alookup (HandleWebhook okEnv scenarioState evA).2.lots "l1" = some ⟨7⟩ ∧
    alookup (HandleWebhook okEnv scenarioState evA).2.ticketTypes "tt1" = some ⟨3, "l1"⟩ := by
  decide

/-- C9: the endpoint acknowledges 200 for every routed notification
whatever the router and handlers do, and once a fresh notification's
event row is inserted the event is always marked processed — for every
environment (including failing gateways and write faults) and every
notification type (including unhandled ones). -/
theorem claim_c9 :
    (∀ (env : Env) (s : DBState) (ev : WebhookEvent), (HandleWebhook env s ev).1 = 200) ∧
    (∀ (env : Env) (s : DBState) (ev : WebhookEvent),
      PagarmeWebhookEventExists s ev.id = false →
      WebhookEventProcessed (HandleWebhook env s ev).2 ev.id = true) :=
  ⟨fun env s ev => HandleWebhook_status env s ev,
   fun env s ev h => HandleWebhook_processed_after env s ev h⟩

/-- C9 witness: an unknown-type notification delivered to a failing
environment is still acknowledged 200 and marked processed. -/
theorem claim_c9_witness :
    (HandleWebhook downEnv scenarioState evU).1 = 200 ∧
    WebhookEventProcessed (HandleWebhook downEnv scenarioState evU).2 evU.id = true :=
  ⟨claim_c9.1 downEnv scenarioState evU, claim_c9.2 downEnv scenarioState evU (by decide)⟩

/-- C10: with an empty remote gateway order id the payment-amount
validation is skipped entirely — the pipeline's result is independent of
the gateway's answers — and on the concrete scenario a claimed order
proceeds straight to issuance and ends PAID with 3 tickets even though
every gateway call would fail. -/
theorem claim_c10 :
    (∀ (g1 g2 : String → Option Int) (fi fs : Nat → Bool) (s : DBState) (oid cid : String),
      processOrderPayment ⟨g1, fi, fs⟩ s oid "" cid
        = processOrderPayment ⟨g2, fi, fs⟩ s oid "" cid) ∧
    ((processOrderPayment downEnv scenarioState "o1" "" "ch1").1 = Outcome.confirmed ∧
     (alookup (processOrderPayment downEnv scenarioState "o1" "" "ch1").2.orders "o1").map
        OrderRow.status = some "PAID" ∧
     (processOrderPayment downEnv scenarioState "o1" "" "ch1").2.tickets.length = 3) :=
  ⟨fun g1 g2 fi fs s oid cid => processOrderPayment_gate g1 g2 fi fs s oid cid, by decide⟩

end Afterzin

namespace Afterzin

/-- C1 counterexample (spec §8 Scenario B): the mismatch run commits the
fraud audit row and creates no tickets, but the committed order status is
`PROCESSING`, and no order in the committed state carries a terminal
fraud status — the pipeline never rewrites the order row's status on the
fraud path. -/
theorem claim_c1_counterexample :
    (processOrderPayment fraudEnv scenarioState "o1" "pg1" "ch1").1 = Outcome.fraudCommitted ∧
    (processOrderPayment fraudEnv scenarioState "o1" "pg1" "ch1").2.history.map HistoryRow.reason
      = ["amount_mismatch"] ∧
    (processOrderPayment fraudEnv scenarioState "o1" "pg1" "ch1").2.tickets = [] ∧
    (alookup (processOrderPayment fraudEnv scenarioState "o1" "pg1" "ch1").2.orders "o1").map
      OrderRow.status = some "PROCESSING" ∧
    (∀ p ∈ (processOrderPayment fraudEnv scenarioState "o1" "pg1" "ch1").2.orders,
      p.2.status ≠ "FRAUD_FLAGGED" ∧ p.2.status ≠ "FRAUD_ALERT") := by
  decide

/-- C1 as amended: when the gateway's settled amount differs from the
expected centavos total of a claimed `PENDING` order, the pipeline
commits exactly one `amount_mismatch` audit row naming `FRAUD_ALERT` as
the attempted new status, creates zero tickets and changes no counters —
but the only committed order mutation is the claim itself, so the order
row's status after the commit is `PROCESSING`, not a fraud status. -/
theorem claim_c1 (env : Env) (s : DBState) (oid pid cid : String) (o : OrderRow) (paid : Int)
    (ho : alookup s.orders oid = some o) (hst : o.status = "PENDING") (hu : o.userID ≠ "")
    (hpid : pid ≠ "") (hg : env.gate pid = some paid)
    (hne : paid ≠ expectedCentavos o.total) :
    (processOrderPayment env s oid pid cid).1 = Outcome.fraudCommitted ∧
    (processOrderPayment env s oid pid cid).2.tickets = s.tickets ∧
    (processOrderPayment env s oid pid cid).2.lots = s.lots ∧
    (processOrderPayment env s oid pid cid).2.ticketTypes = s.ticketTypes ∧
    (alookup (processOrderPayment env s oid pid cid).2.orders oid).map OrderRow.status
      = some "PROCESSING" ∧
    (processOrderPayment env s oid pid cid).2.history
      = s.history ++ [⟨oid, "PROCESSING", "FRAUD_ALERT", "amount_mismatch", "", pid, cid, ""⟩] := by
  have hrun := processOrderPayment_fraud_run env s oid pid cid o paid ho hst hu hpid hg hne
  have ho2 : alookup ({ s with orders := aupdate s.orders oid (setStatus "PROCESSING") } : DBState).orders oid
      = some (setStatus "PROCESSING" o) := by
    show alookup (aupdate s.orders oid (setStatus "PROCESSING")) oid = _
    rw [alookup_aupdate_self, ho]
    rfl
  obtain ⟨g1, g2, g3, g4, g5, g6, g7, g8⟩ := saveGatewayIDs_frame
    { s with orders := aupdate s.orders oid (setStatus "PROCESSING") } oid pid cid
  obtain ⟨r, hr, hrs, _, _⟩ := saveGatewayIDs_order_fields pid cid ho2
  rw [hrun]
  refine ⟨rfl, ?_, ?_, ?_, ?_, ?_⟩
  · exact g4
  · exact g3
  · exact g2
  · show (alookup (saveGatewayIDs { s with
        orders := aupdate s.orders oid (setStatus "PROCESSING") } oid pid cid).orders oid).map
        OrderRow.status = some "PROCESSING"
    rw [hr]
    simp [hrs, setStatus]
  · show (saveGatewayIDs { s with
        orders := aupdate s.orders oid (setStatus "PROCESSING") } oid pid cid).history ++ _ = _
    rw [g6]

/-- C1 witness: Scenario B instantiates the amended claim with every
hypothesis discharged on the concrete store. -/
theorem claim_c1_witness :
    (processOrderPayment fraudEnv scenarioState "o1" "pg1" "ch1").1 = Outcome.fraudCommitted ∧
    (processOrderPayment fraudEnv scenarioState "o1" "pg1" "ch1").2.tickets
      = scenarioState.tickets ∧
    (processOrderPayment fraudEnv scenarioState "o1" "pg1" "ch1").2.lots = scenarioState.lots ∧
    (processOrderPayment fraudEnv scenarioState "o1" "pg1" "ch1").2.ticketTypes
      = scenarioState.ticketTypes ∧
    (alookup (processOrderPayment fraudEnv scenarioState "o1" "pg1" "ch1").2.orders "o1").map
      OrderRow.status = some "PROCESSING" ∧
    (processOrderPayment fraudEnv scenarioState "o1" "pg1" "ch1").2.history
      = scenarioState.history
        ++ [⟨"o1", "PROCESSING", "FRAUD_ALERT", "amount_mismatch", "", "pg1", "ch1", ""⟩] :=
  claim_c1 fraudEnv scenarioState "o1" "pg1" "ch1" ⟨"u1", "PENDING", 300, none, none⟩ 25000
    (by decide) (by decide) (by decide) (by decide) (by decide) (by decide)

/-- C2 counterexample: when the settled-amount fetch fails, the run ends
with the pre-transaction state intact — the order is back to `PENDING`
rather than remaining claimed in `PROCESSING`, and the attempted
failed-validation audit row was rolled back, so the audit trail is
empty. -/
theorem claim_c2_counterexample :
    (processOrderPayment downEnv scenarioState "o1" "pg1" "ch1").1 = Outcome.gatewayFailed ∧
    (processOrderPayment downEnv scenarioState "o1" "pg1" "ch1").2 = scenarioState ∧
    (alookup (processOrderPayment downEnv scenarioState "o1" "pg1" "ch1").2.orders "o1").map
      OrderRow.status = some "PENDING" ∧
    (processOrderPayment downEnv scenarioState "o1" "pg1" "ch1").2.history = [] ∧
    some "PENDING" ≠ some "PROCESSING" := by
  decide

/-- C2 as amended: when the gateway call fetching the settled amount
fails for a claimed `PENDING` order, the pipeline aborts without a
commit: the rollback discards the audit write together with the claim
itself, so no audit row persists, no tickets are created, and the order
is back to `PENDING` (not stuck in `PROCESSING`); nothing in the
pipeline retries it. -/
theorem claim_c2 (env : Env) (s : DBState) (oid pid cid : String) (o : OrderRow)
    (ho : alookup s.orders oid = some o) (hst : o.status = "PENDING") (hu : o.userID ≠ "")
    (hpid : pid ≠ "") (hg : env.gate pid = none) :
    processOrderPayment env s oid pid cid = (Outcome.gatewayFailed, s) ∧
    (processOrderPayment env s oid pid cid).2.history = s.history ∧
    (processOrderPayment env s oid pid cid).2.tickets = s.tickets ∧
    (alookup (processOrderPayment env s oid pid cid).2.orders oid).map OrderRow.status
      = some "PENDING" := by
  have hrun := processOrderPayment_gateway_failure env s oid pid cid o ho hst hu hpid hg
  refine ⟨hrun, by rw [hrun], by rw [hrun], ?_⟩
  rw [hrun]
  show (alookup s.orders oid).map OrderRow.status = some "PENDING"
  rw [ho]
  simp [hst]

/-- C2 witness: the failing-gateway run on the scenario store
instantiates the amended claim with every hypothesis discharged. -/
theorem claim_c2_witness :
    processOrderPayment downEnv scenarioState "o1" "pg1" "ch1"
      = (Outcome.gatewayFailed, scenarioState) ∧
    (processOrderPayment downEnv scenarioState "o1" "pg1" "ch1").2.history
      = scenarioState.history ∧
    (processOrderPayment downEnv scenarioState "o1" "pg1" "ch1").2.tickets
      = scenarioState.tickets ∧
    (alookup (processOrderPayment downEnv scenarioState "o1" "pg1" "ch1").2.orders "o1").map
      OrderRow.status = some "PENDING" :=
  claim_c2 downEnv scenarioState "o1" "pg1" "ch1" ⟨"u1", "PENDING", 300, none, none⟩
    (by decide) (by decide) (by decide) (by decide) (by decide)

/-- C3 counterexample: a conditional-decrement refusal (lot with 2 left,
order needing 3) rolls back the whole transaction, after which the order
reads `PENDING` — not `PROCESSING` as the claim's "remains IN_PROGRESS"
states — because the claim transition itself was part of the rolled-back
transaction. -/
theorem claim_c3_counterexample :
    (processOrderPayment okEnv lowStockState "o1" "pg1" "ch1").1 = Outcome.issueFailed ∧
    (processOrderPayment okEnv lowStockState "o1" "pg1" "ch1").2.tickets = [] ∧
    (alookup (processOrderPayment okEnv lowStockState "o1" "pg1" "ch1").2.orders "o1").map
      OrderRow.status = some "PENDING" ∧
    some "PENDING" ≠ some "PROCESSING" := by
  decide

/-- C3 as amended: whenever ticket issuance fails — a failing ticket
insert, a failing sold-counter increment, or the conditional lot
decrement refusing on exhausted inventory — the entire transaction is
rolled back to the pre-claim state: zero tickets persist, no counter
changes persist, and the order reverts to `PENDING` (the rolled-back
transaction included the claim, so the order does not remain
`PROCESSING`).  The two closed conjuncts exhibit the inventory-refusal
and the mid-order insert-fault runs on the concrete store. -/
theorem claim_c3 :
    (∀ (env : Env) (s : DBState) (oid pid cid : String),
      (processOrderPayment env s oid pid cid).1 = Outcome.issueFailed →
      (processOrderPayment env s oid pid cid).2 = s) ∧
    processOrderPayment okEnv lowStockState "o1" "pg1" "ch1"
      = (Outcome.issueFailed, lowStockState) ∧
    processOrderPayment insertFaultEnv scenarioState "o1" "pg1" "ch1"
      = (Outcome.issueFailed, scenarioState) := by
  refine ⟨?_, by decide, by decide⟩
  intro env s oid pid cid h1
  rcases @processOrderPayment_rollback env s oid pid cid
      (processOrderPayment env s oid pid cid).1 (processOrderPayment env s oid pid cid).2 rfl
    with hf | hc | hs
  · rw [h1] at hf
    cases hf
  · rw [h1] at hc
    cases hc
  · exact hs

/-- C3 witness: the insert-fault run instantiates the rollback clause
with its hypothesis discharged on the concrete store. -/
theorem claim_c3_witness :
    (processOrderPayment insertFaultEnv scenarioState "o1" "pg1" "ch1").2 = scenarioState :=
  claim_c3.1 insertFaultEnv scenarioState "o1" "pg1" "ch1" (by decide)

end Afterzin

namespace Afterzin

/-- C6: the charge.paid handler consults the cross-event guard before any
mutation and aborts silently when it reports the order already handled;
and for any order that is no longer `PENDING` — in particular one already
fulfilled by an order.paid notification — a charge.paid delivery
referencing it leaves orders, tickets, sold counters and lot counters
untouched, so the payment is fulfilled exactly once. -/
theorem claim_c6 (env : Env) (s : DBState) (ev : WebhookEvent) (d : EventData)
    (ocode orid : String) (hty : ev.type = "charge.paid") (hd : ev.data = some d)
    (ho : d.order = some (ocode, orid))
    (hstat : ∀ o, alookup s.orders ocode = some o → o.status ≠ "PENDING") :
    (PagarmeWebhookProcessedForOrder s ocode "order.paid" = true ∧ ocode ≠ "" →
      handleChargePaid env s ev = s) ∧
    (HandleWebhook env s ev).2.orders = s.orders ∧
    (HandleWebhook env s ev).2.tickets = s.tickets ∧
    (HandleWebhook env s ev).2.ticketTypes = s.ticketTypes ∧
    (HandleWebhook env s ev).2.lots = s.lots := by
  have hguard : ∀ (x : DBState), x.orders = s.orders → handleChargePaid env x ev = x := by
    intro x hx
    simp only [handleChargePaid, hd, ho]
    by_cases hcode : ocode = ""
    · simp [hcode]
    · simp only [if_neg hcode]
      cases g1 : PagarmeWebhookProcessedForOrder x ocode "order.paid" with
      | true => simp
      | false =>
        simp only [Bool.false_eq_true, if_false]
        cases g2 : PagarmeWebhookProcessedForOrder x ocode "charge.paid" with
        | true => simp
        | false =>
          simp only [Bool.false_eq_true, if_false]
          have hclaim : ClaimOrderProcessingTx x ocode = (false, x) := by
            apply ClaimOrderProcessingTx_not_pending
            intro o2 ho2
            rw [hx] at ho2
            exact hstat o2 ho2
          simp [processOrderPayment, hclaim]
  constructor
  · rintro ⟨hproc, hcode⟩
    simp only [handleChargePaid, hd, ho, if_neg hcode, hproc, if_true]
  · cases hdup : PagarmeWebhookEventExists s ev.id with
    | true =>
      simp [HandleWebhook, hdup]
    | false =>
      have hne1 : ¬ ev.type = "order.paid" := by rw [hty]; decide
      simp only [HandleWebhook, hdup, Bool.false_eq_true, if_false, if_neg hne1, if_pos hty]
      obtain ⟨j1, j2, j3, j4, j5, j6, j7, j8⟩ := InsertPagarmeWebhookEvent_frame s ev.id ev.type
      rw [hguard (InsertPagarmeWebhookEvent s ev.id ev.type) j1]
      exact ⟨j1, j5, j3, j4⟩

/-- C6 witness: after Scenario A fulfilled order `o1` via the order.paid
notification, the charge.paid notification for the same payment leaves
orders, tickets and both counters unchanged. -/
theorem claim_c6_witness :
    (PagarmeWebhookProcessedForOrder paidState "o1" "order.paid" = true ∧ "o1" ≠ "" →
      handleChargePaid okEnv paidState evB = paidState) ∧
    (HandleWebhook okEnv paidState evB).2.orders = paidState.orders ∧
    (HandleWebhook okEnv paidState evB).2.tickets = paidState.tickets ∧
    (HandleWebhook okEnv paidState evB).2.ticketTypes = paidState.ticketTypes ∧
    (HandleWebhook okEnv paidState evB).2.lots = paidState.lots :=
  claim_c6 okEnv paidState evB ⟨"", "ch1", "", some ("o1", "pg1")⟩ "o1" "pg1"
    rfl rfl rfl (by decide)

end Afterzin
